import Mathlib

/-!
Shallow embedding of the NovAtel OEM6 driver core
(`src/apis/novatel-oem6-api/src/oem6.rs`): the frame reader/dispatcher
(`read_thread`), the command API send path (`send_message`,
`request_position`), the response correlator (`get_response`) and the log
consumer (`get_log`).

Modelling conventions:
* machine integers are `Nat` (bytes are `Nat`s below 256; `u32` values are
  below `2 ^ 32`, with hypotheses where it matters);
* the `messages` crate (Header::parse, Response::new, Log::new) and the
  `crc32` crate (`calc_crc`) are not part of this repository's sources, so
  the corresponding functions are parameters of the embedded operations;
* the `f64` interval/offset fields are modelled as `ℚ` (the operations on
  them in this file are construction and comparison with zero, which agree
  with IEEE semantics on all representable non-NaN values);
* the fallible channel receive (`recv_timeout`) is modelled by an
  `Except RecvTimeoutError` input, and a Rust `panic!` / `.unwrap()` failure
  is an explicit `panicked` outcome.
-/

namespace Oem6

/-- Modelled from the spec: the fixed 3-byte synchronization marker that
starts every frame (`SYNC` in the missing `messages` module; the spec fixes
only that it is a 3-byte constant — the NovAtel value is used here). -/
def SYNC : List Nat := [0xAA, 0x44, 0x12]

/-- Modelled from the spec: the frame's header region is the first 28 bytes
after synchronization starts (3 sync bytes plus 25 header bytes); `HDR_LEN`
in the missing `messages` module. -/
def HDR_LEN : Nat := 28

/-- Message identifiers used by the driver (the numeric discriminants live in
the missing `messages` module; the driver compares identifiers only for
equality, so they are kept symbolic). -/
inductive MessageID
  | Version
  | BestXYZ
  | RxStatusEvent
  | Log
  | Unlog
  | UnlogAll
  deriving DecidableEq, Repr

/-- The parsed frame header fields the driver reads: `msg_type` (byte whose
bit 0x80 marks a response), `msg_id`, and `msg_len` (body length). -/
structure Header where
  msgType : Nat
  msgId : MessageID
  msgLen : Nat
  deriving DecidableEq, Repr

/-- Modelled from the spec: the response result code — `Ok` plus
device-supplied error codes (`ResponseID` in the missing `messages`
module). -/
inductive ResponseID
  | Ok
  | DeviceError (code : Nat)
  deriving DecidableEq, Repr

/-- A parsed command response: result code plus free-text description. -/
structure Response where
  respId : ResponseID
  respString : String
  deriving DecidableEq, Repr

/-- A parsed log record (`Log` in the missing `messages` module); the driver
only moves whole values, so the payload is kept abstract as the message id
and raw data. -/
structure LogRecord where
  msgId : MessageID
  data : List Nat
  deriving DecidableEq, Repr

/-- Log trigger kinds of the Log-request command. -/
inductive LogTrigger
  | Once
  | OnTime
  | OnChanged
  deriving DecidableEq, Repr

/-- Device ports (the driver always targets COM1). -/
inductive Port
  | COM1
  deriving DecidableEq, Repr

/-- The Log-request command body fields (`LogCmd` in the missing `messages`
module). -/
structure LogCmd where
  port : Port
  msgId : MessageID
  trigger : LogTrigger
  interval : ℚ
  offset : ℚ
  hold : Bool
  deriving DecidableEq, Repr

/-- `LogCmd::new(port, msg_id, trigger, interval, offset, hold)`. -/
def LogCmd.new (port : Port) (msgId : MessageID) (trigger : LogTrigger)
    (interval offset : ℚ) (hold : Bool) : LogCmd :=
  ⟨port, msgId, trigger, interval, offset, hold⟩

/-- The driver's error taxonomy (`OEMError` in oem6.rs); the wrapped UART
error cause is kept abstract as a number. -/
inductive OEMError
  | GenericError
  | ResponseMismatch
  | NoResponse
  | CommandError (id : ResponseID) (description : String)
  | UnknownMessage (id : Nat)
  | UartError (cause : Nat)
  deriving DecidableEq, Repr

/-- The two failure causes of `std::sync::mpsc::Receiver::recv_timeout`:
the timeout elapsed, or the sending side disconnected.  `get_response` maps
either to the same error. -/
inductive RecvTimeoutError
  | timeout
  | disconnected
  deriving DecidableEq, Repr

/-- `nom::le_u32`: decode the first four bytes as a little-endian `u32`. -/
def le_u32 (bytes : List Nat) : Nat :=
  match bytes with
  | b0 :: b1 :: b2 :: b3 :: _ =>
      b0 + b1 * 256 + b2 * 2 ^ 16 + b3 * 2 ^ 24
  | _ => 0

/-- `byteorder::WriteBytesExt::write_u32::<LittleEndian>`: the four bytes of
a `u32`, least significant first. -/
def le_u32_bytes (n : Nat) : List Nat :=
  [n % 256, n / 256 % 256, n / 2 ^ 16 % 256, n / 2 ^ 24 % 256]

/-- The response-flag test `hdr.msg_type & 0x80 == 0x80`, written in
oem6.rs in `read_thread` (dispatch), `get_response` (defensive check) and
`get_log` (skip check). -/
def responseFlagSet (hdr : Header) : Bool :=
  hdr.msgType &&& 0x80 == 0x80

/-- Modelled from the spec: the state of one bounded delivery queue of a
`sync_channel` — its buffered items, its capacity (reference capacity 5),
and whether the receiving end is still connected. -/
structure QueueState where
  buf : List (Header × List Nat)
  cap : Nat
  connected : Bool
  deriving DecidableEq, Repr

/-- Modelled from the spec: `SyncSender::try_send` — a non-blocking enqueue
that succeeds exactly when the receiver is connected and the bounded buffer
has spare capacity, and otherwise fails (full or disconnected). -/
def QueueState.trySend (q : QueueState) (item : Header × List Nat) :
    Option QueueState :=
  if q.connected ∧ q.buf.length < q.cap then
    some { q with buf := q.buf ++ [item] }
  else
    none

/-- Result of one transport `read(n, timeout)` call: the bytes, a timeout,
or another I/O failure. -/
inductive ReadResult
  | ok (bytes : List Nat)
  | timedOut
  | ioError
  deriving DecidableEq, Repr

/-- Which delivery queue a validated frame went to. -/
inductive Dest
  | resp
  | log
  deriving DecidableEq, Repr

/-- Outcome of one iteration of the `read_thread` loop: `continue` to the
next iteration, a Rust panic (`.unwrap()` / `panic!`), or a frame delivered
to one queue. -/
inductive StepOutcome
  | cont
  | panicked
  | delivered (dest : Dest) (hdr : Header) (body : List Nat)
  deriving DecidableEq, Repr

/-- One `read_thread` iteration's outcome together with both queue states
after it. -/
structure StepResult where
  outcome : StepOutcome
  logQ : QueueState
  respQ : QueueState
  deriving DecidableEq, Repr

/-- The accumulated `message` vector right before the CRC split: sync bytes,
then the 25 header bytes, then body-plus-CRC bytes. -/
def frameMessage (sync hb bc : List Nat) : List Nat :=
  (sync ++ hb) ++ bc

/-- `message` after `split_off(len - 4)`: everything but the last 4 bytes —
the range the computed CRC covers. -/
def frameKept (m : List Nat) : List Nat :=
  m.take (m.length - 4)

/-- The transmitted CRC: the last 4 bytes of `message`, decoded
little-endian. -/
def frameCrcField (m : List Nat) : Nat :=
  le_u32 (m.drop (m.length - 4))

/-- The delivered body: `message.split_off(HDR_LEN)` after the CRC bytes
were removed. -/
def frameBody (m : List Nat) : List Nat :=
  (frameKept m).drop HDR_LEN

/-- One iteration of `read_thread` (oem6.rs lines 77–131), parameterized
over the missing-crate functions `Header::parse` and `calc_crc` and over the
three transport reads of the iteration (`r3` receives the requested length
`hdr.msg_len + 4`).  A timeout on the sync read is `continue`; any failure
of the header or body read hits `.unwrap()` and panics; a non-timeout sync
read failure hits `panic!(err)`. -/
def read_thread_step (parseHeader : List Nat → Option Header)
    (calc_crc : List Nat → Nat) (r1 r2 : ReadResult) (r3 : Nat → ReadResult)
    (logQ respQ : QueueState) : StepResult :=
  match r1 with
  | .timedOut => ⟨.cont, logQ, respQ⟩
  | .ioError => ⟨.panicked, logQ, respQ⟩
  | .ok sync =>
    if sync ≠ SYNC then ⟨.cont, logQ, respQ⟩
    else
      match r2 with
      | .timedOut => ⟨.panicked, logQ, respQ⟩
      | .ioError => ⟨.panicked, logQ, respQ⟩
      | .ok hb =>
        match parseHeader (sync ++ hb) with
        | none => ⟨.cont, logQ, respQ⟩
        | some hdr =>
          match r3 (hdr.msgLen + 4) with
          | .timedOut => ⟨.panicked, logQ, respQ⟩
          | .ioError => ⟨.panicked, logQ, respQ⟩
          | .ok bc =>
            if calc_crc (frameKept (frameMessage sync hb bc)) ≠
                frameCrcField (frameMessage sync hb bc) then
              ⟨.cont, logQ, respQ⟩
            else
              if responseFlagSet hdr then
                match respQ.trySend
                    (hdr, frameBody (frameMessage sync hb bc)) with
                | some q =>
                    ⟨.delivered .resp hdr (frameBody (frameMessage sync hb bc)),
                      logQ, q⟩
                | none => ⟨.panicked, logQ, respQ⟩
              else
                match logQ.trySend
                    (hdr, frameBody (frameMessage sync hb bc)) with
                | some q =>
                    ⟨.delivered .log hdr (frameBody (frameMessage sync hb bc)),
                      q, respQ⟩
                | none => ⟨.panicked, logQ, respQ⟩

/-- `send_message` (oem6.rs lines 324–333): the exact bytes written to the
transport — the serialized body followed by the little-endian CRC computed
over it. -/
def send_message (calc_crc : List Nat → Nat) (serialized : List Nat) :
    List Nat :=
  serialized ++ le_u32_bytes (calc_crc serialized)

/-- `request_position` (oem6.rs lines 214–235): the Log-request command it
builds. -/
def request_position (interval offset : ℚ) (hold : Bool) : LogCmd :=
  LogCmd.new Port.COM1 MessageID.BestXYZ
    (if interval = 0 then LogTrigger.Once else LogTrigger.OnTime)
    interval offset hold

/-- The portion of `get_response` after the defensive response-flag check:
parse the body as a Response, check the correlation id, check the result
code. -/
def respond_to_item (parseResponse : List Nat → Option Response)
    (hdr : Header) (body : List Nat) (id : MessageID) :
    Except OEMError Unit :=
  match parseResponse body with
  | none => .error .NoResponse
  | some resp =>
    if hdr.msgId ≠ id then .error .ResponseMismatch
    else if resp.respId ≠ ResponseID.Ok then
      .error (.CommandError resp.respId resp.respString)
    else .ok ()

/-- `get_response` (oem6.rs lines 335–371), parameterized over the missing
`Response::new` and over the result of the bounded receive on the response
queue (any receive failure is mapped to `NoResponse` by
`.map_err(|_| OEMError::NoResponse)`). -/
def get_response (parseResponse : List Nat → Option Response)
    (recv : Except RecvTimeoutError (Header × List Nat)) (id : MessageID) :
    Except OEMError Unit :=
  match recv with
  | .error _ => .error .NoResponse
  | .ok (hdr, body) =>
    if responseFlagSet hdr then respond_to_item parseResponse hdr body id
    else .error .NoResponse

/-- Outcome of `get_log` on a finite prefix of the log-queue stream:
a Rust panic, a returned log record, or the stream prefix exhausted with the
loop still running. -/
inductive GetLogOutcome
  | panicked
  | returned (l : LogRecord)
  | stillLooping
  deriving DecidableEq, Repr

/-- `get_log` (oem6.rs lines 383–399), parameterized over the missing
`Log::new` and driven by the successive results of
`log_recv.recv_timeout(5 s)`: a failed receive hits `.unwrap()` and panics;
a response-flagged item is skipped; an unparseable body is skipped; the
first parsed log is returned. -/
def get_log (parseLog : MessageID → List Nat → Option LogRecord) :
    List (Except RecvTimeoutError (Header × List Nat)) → GetLogOutcome
  | [] => .stillLooping
  | r :: rest =>
    match r with
    | .error _ => .panicked
    | .ok (hdr, body) =>
      if responseFlagSet hdr then get_log parseLog rest
      else
        match parseLog hdr.msgId body with
        | some v => .returned v
        | none => get_log parseLog rest

/-! ## Theorems -/

/-- C1: `get_response` applies its checks in exactly this order: a failed
receive yields `NoResponse`; a header without the 0x80 response flag yields
`NoResponse`; a body that fails to parse yields `NoResponse`; a message-id
mismatch yields `ResponseMismatch` (even when the result code is also bad);
a non-`Ok` result code yields `CommandError` with the device-supplied code
and description; otherwise the call succeeds with no value. -/
theorem get_response_check_order (parse : List Nat → Option Response)
    (hdr : Header) (body : List Nat) (id : MessageID) :
    (∀ e, get_response parse (.error e) id = .error .NoResponse) ∧
    (responseFlagSet hdr = false →
      get_response parse (.ok (hdr, body)) id = .error .NoResponse) ∧
    (responseFlagSet hdr = true → parse body = none →
      get_response parse (.ok (hdr, body)) id = .error .NoResponse) ∧
    (∀ r, responseFlagSet hdr = true → parse body = some r →
      hdr.msgId ≠ id →
      get_response parse (.ok (hdr, body)) id = .error .ResponseMismatch) ∧
    (∀ r, responseFlagSet hdr = true → parse body = some r →
      hdr.msgId = id → r.respId ≠ ResponseID.Ok →
      get_response parse (.ok (hdr, body)) id =
        .error (.CommandError r.respId r.respString)) ∧
    (∀ r, responseFlagSet hdr = true → parse body = some r →
      hdr.msgId = id → r.respId = ResponseID.Ok →
      get_response parse (.ok (hdr, body)) id = .ok ()) := by
  refine ⟨fun e => rfl, fun hf => ?_, fun hf hp => ?_, fun r hf hp hne => ?_,
    fun r hf hp hid hr => ?_, fun r hf hp hid hr => ?_⟩
  · simp [get_response, hf]
  · simp [get_response, respond_to_item, hf, hp]
  · simp [get_response, respond_to_item, hf, hp, hne]
  · simp [get_response, respond_to_item, hf, hp, hid, hr]
  · simp [get_response, respond_to_item, hf, hp, hid, hr]

/-- Witness for C1: concrete items falling into the mismatch and the
command-error branches. -/
theorem get_response_check_order_witness :
    get_response (fun _ => some ⟨ResponseID.Ok, ""⟩)
        (.ok (⟨0x80, .Log, 0⟩, [])) .BestXYZ = .error .ResponseMismatch ∧
    get_response (fun _ => some ⟨ResponseID.DeviceError 3, "bad"⟩)
        (.ok (⟨0x80, .Log, 0⟩, [])) .Log =
      .error (.CommandError (ResponseID.DeviceError 3) "bad") := by
  constructor
  · exact (get_response_check_order (fun _ => some ⟨ResponseID.Ok, ""⟩)
      ⟨0x80, .Log, 0⟩ [] .BestXYZ).2.2.2.1 ⟨ResponseID.Ok, ""⟩
      (by decide) rfl (by decide)
  · exact (get_response_check_order
      (fun _ => some ⟨ResponseID.DeviceError 3, "bad"⟩)
      ⟨0x80, .Log, 0⟩ [] .Log).2.2.2.2.1 ⟨ResponseID.DeviceError 3, "bad"⟩
      (by decide) rfl rfl (by decide)

/-- C10: every failure of the bounded receive on the response queue — the
500 ms timeout as well as a disconnected channel — is mapped by
`get_response` to the `NoResponse` error, never to a panic or a distinct
variant. -/
theorem get_response_recv_failure (parse : List Nat → Option Response)
    (e : RecvTimeoutError) (id : MessageID) :
    get_response parse (.error e) id = .error .NoResponse := rfl

/-- C5: `request_position(interval, offset, hold)` builds a Log-request
command on COM1 for message id BestXYZ, with trigger Once exactly when the
interval is zero and OnTime otherwise, carrying the given interval, offset
and hold; in particular `request_position(1.0, 0.0, false)` carries
trigger OnTime, interval 1, offset 0, hold false. -/
theorem request_position_fields (interval offset : ℚ) (hold : Bool) :
    (request_position interval offset hold).port = Port.COM1 ∧
    (request_position interval offset hold).msgId = MessageID.BestXYZ ∧
    (interval = 0 →
      (request_position interval offset hold).trigger = LogTrigger.Once) ∧
    (interval ≠ 0 →
      (request_position interval offset hold).trigger = LogTrigger.OnTime) ∧
    (request_position interval offset hold).interval = interval ∧
    (request_position interval offset hold).offset = offset ∧
    (request_position interval offset hold).hold = hold ∧
    request_position 1 0 false =
      LogCmd.new Port.COM1 MessageID.BestXYZ LogTrigger.OnTime 1 0 false := by
  refine ⟨rfl, rfl, fun h => ?_, fun h => ?_, rfl, rfl, rfl, ?_⟩
  · simp [request_position, LogCmd.new, h]
  · simp [request_position, LogCmd.new, h]
  · simp [request_position, LogCmd.new]

/-- Witness for C5: the one-shot and periodic triggers at concrete
intervals. -/
theorem request_position_fields_witness :
    (request_position 0 0 true).trigger = LogTrigger.Once ∧
    (request_position 1 0 false).trigger = LogTrigger.OnTime := by
  exact ⟨(request_position_fields 0 0 true).2.2.1 rfl,
    (request_position_fields 1 0 false).2.2.2.1 (by norm_num)⟩

/-- C6: the bytes `send_message` writes are exactly the serialized body
followed by 4 bytes holding the little-endian CRC of that body — nothing
prepended, nothing else appended. -/
theorem send_message_format (calc_crc : List Nat → Nat)
    (serialized : List Nat) (h : calc_crc serialized < 2 ^ 32) :
    (send_message calc_crc serialized).length = serialized.length + 4 ∧
    (send_message calc_crc serialized).take serialized.length = serialized ∧
    ((send_message calc_crc serialized).drop serialized.length).length = 4 ∧
    le_u32 ((send_message calc_crc serialized).drop serialized.length) =
      calc_crc serialized := by
  refine ⟨?_, ?_, ?_, ?_⟩
  · simp [send_message, le_u32_bytes]
  · simp [send_message, List.take_left]
  · simp [send_message, le_u32_bytes]
  · simp only [send_message, List.drop_left, le_u32_bytes, le_u32]
    omega

/-- Witness for C6: a concrete serialized body with a concrete checksum
function. -/
theorem send_message_format_witness :
    List.sum [1, 2, 3] < 2 ^ 32 ∧
    le_u32 ((send_message List.sum [1, 2, 3]).drop 3) = List.sum [1, 2, 3] :=
  ⟨by norm_num, (send_message_format List.sum [1, 2, 3] (by norm_num)).2.2.2⟩

/-- Helper: whenever one `read_thread` iteration delivers a frame, the
destination is determined by the response flag and the other queue is left
untouched. -/
theorem step_delivered_cases (pH : List Nat → Option Header)
    (cc : List Nat → Nat) (r1 r2 : ReadResult) (r3 : Nat → ReadResult)
    (logQ respQ : QueueState) (dest : Dest) (hdr : Header) (body : List Nat)
    (h : (read_thread_step pH cc r1 r2 r3 logQ respQ).outcome =
      .delivered dest hdr body) :
    (responseFlagSet hdr = true ∧ dest = .resp ∧
      (read_thread_step pH cc r1 r2 r3 logQ respQ).logQ = logQ) ∨
    (responseFlagSet hdr = false ∧ dest = .log ∧
      (read_thread_step pH cc r1 r2 r3 logQ respQ).respQ = respQ) := by
  unfold read_thread_step at h ⊢
  repeat' split at h
  all_goals simp_all

/-- Helper: a concrete header parse function for witness frames — accepts
any 28-byte header region as a log-type header with a 1-byte body. -/
def cexParse : List Nat → Option Header :=
  fun b => if b.length = 28 then some ⟨0, .BestXYZ, 1⟩ else none

/-- C2: a delivered frame whose message-type byte has bit 0x80 set goes only
to the response queue (the log queue is unchanged), and one with the bit
clear goes only to the log queue (the response queue is unchanged). -/
theorem read_thread_step_routing (pH : List Nat → Option Header)
    (cc : List Nat → Nat) (r1 r2 : ReadResult) (r3 : Nat → ReadResult)
    (logQ respQ : QueueState) (dest : Dest) (hdr : Header) (body : List Nat)
    (h : (read_thread_step pH cc r1 r2 r3 logQ respQ).outcome =
      .delivered dest hdr body) :
    (responseFlagSet hdr = true → dest = .resp ∧
      (read_thread_step pH cc r1 r2 r3 logQ respQ).logQ = logQ) ∧
    (responseFlagSet hdr = false → dest = .log ∧
      (read_thread_step pH cc r1 r2 r3 logQ respQ).respQ = respQ) := by
  rcases step_delivered_cases pH cc r1 r2 r3 logQ respQ dest hdr body h with
    ⟨hf, hd, hq⟩ | ⟨hf, hd, hq⟩
  · exact ⟨fun _ => ⟨hd, hq⟩, fun hc => absurd hf (by simp [hc])⟩
  · exact ⟨fun hc => absurd hf (by simp [hc]), fun _ => ⟨hd, hq⟩⟩

/-- Witness for C2: a concrete log frame is delivered to the log queue and
leaves the response queue unchanged. -/
theorem read_thread_step_routing_witness :
    (responseFlagSet ⟨0, .BestXYZ, 1⟩ = true → Dest.log = Dest.resp ∧
      (read_thread_step cexParse List.sum (.ok SYNC)
        (.ok (List.replicate 25 0)) (fun _ => .ok [7, 7, 1, 0, 0])
        ⟨[], 5, true⟩ ⟨[], 5, true⟩).logQ = ⟨[], 5, true⟩) ∧
    (responseFlagSet ⟨0, .BestXYZ, 1⟩ = false → Dest.log = Dest.log ∧
      (read_thread_step cexParse List.sum (.ok SYNC)
        (.ok (List.replicate 25 0)) (fun _ => .ok [7, 7, 1, 0, 0])
        ⟨[], 5, true⟩ ⟨[], 5, true⟩).respQ = ⟨[], 5, true⟩) :=
  read_thread_step_routing cexParse List.sum (.ok SYNC)
    (.ok (List.replicate 25 0)) (fun _ => .ok [7, 7, 1, 0, 0])
    ⟨[], 5, true⟩ ⟨[], 5, true⟩ .log ⟨0, .BestXYZ, 1⟩ [7] (by decide)

/-- C9: every frame the dispatcher delivers to the response queue has the
0x80 flag set and every frame it delivers to the log queue has it clear;
consequently, on such items `get_response` proceeds past its defensive
flag check to the parse/correlate/result logic, and `get_log` does not take
its response-flag skip branch. -/
theorem dispatcher_consumer_invariant (pH : List Nat → Option Header)
    (cc : List Nat → Nat) (r1 r2 : ReadResult) (r3 : Nat → ReadResult)
    (logQ respQ : QueueState) (dest : Dest) (hdr : Header) (body : List Nat)
    (h : (read_thread_step pH cc r1 r2 r3 logQ respQ).outcome =
      .delivered dest hdr body) :
    (dest = .resp → responseFlagSet hdr = true ∧
      ∀ parse id, get_response parse (.ok (hdr, body)) id =
        respond_to_item parse hdr body id) ∧
    (dest = .log → responseFlagSet hdr = false ∧
      ∀ parse rest, get_log parse (.ok (hdr, body) :: rest) =
        match parse hdr.msgId body with
        | some v => .returned v
        | none => get_log parse rest) := by
  rcases step_delivered_cases pH cc r1 r2 r3 logQ respQ dest hdr body h with
    ⟨hf, hd, _⟩ | ⟨hf, hd, _⟩
  · refine ⟨fun _ => ⟨hf, fun parse id => ?_⟩, fun hc => ?_⟩
    · simp [get_response, hf]
    · rw [hd] at hc
      exact absurd hc (by simp)
  · refine ⟨fun hc => ?_, fun _ => ⟨hf, fun parse rest => ?_⟩⟩
    · rw [hd] at hc
      exact absurd hc (by simp)
    · simp [get_log, hf]

/-- Witness for C9: the concrete log frame above, checked against a concrete
log parse function. -/
theorem dispatcher_consumer_invariant_witness :
    (Dest.log = Dest.resp → responseFlagSet ⟨0, .BestXYZ, 1⟩ = true ∧
      ∀ parse id, get_response parse (.ok (⟨0, .BestXYZ, 1⟩, [7])) id =
        respond_to_item parse ⟨0, .BestXYZ, 1⟩ [7] id) ∧
    (Dest.log = Dest.log → responseFlagSet ⟨0, .BestXYZ, 1⟩ = false ∧
      ∀ parse rest,
        get_log parse (.ok (⟨0, .BestXYZ, 1⟩, [7]) :: rest) =
          match parse MessageID.BestXYZ [7] with
          | some v => .returned v
          | none => get_log parse rest) :=
  dispatcher_consumer_invariant cexParse List.sum (.ok SYNC)
    (.ok (List.replicate 25 0)) (fun _ => .ok [7, 7, 1, 0, 0])
    ⟨[], 5, true⟩ ⟨[], 5, true⟩ .log ⟨0, .BestXYZ, 1⟩ [7] (by decide)

/-- Counterexample for C3: a frame whose transmitted CRC equals the checksum
of sync ‖ header ‖ body — and therefore differs from the checksum of
header ‖ body alone — is delivered, not discarded: the dispatcher's CRC
range includes the 3 sync bytes. -/
theorem crc_range_counterexample :
    (read_thread_step cexParse List.sum (.ok SYNC)
        (.ok (List.replicate 25 0)) (fun _ => .ok [7, 7, 1, 0, 0])
        ⟨[], 5, true⟩ ⟨[], 5, true⟩).outcome =
      .delivered .log ⟨0, .BestXYZ, 1⟩ [7] ∧
    List.sum (List.replicate 25 0 ++ [7]) ≠ le_u32 [7, 1, 0, 0] ∧
    List.sum (SYNC ++ List.replicate 25 0 ++ [7]) = le_u32 [7, 1, 0, 0] := by
  refine ⟨by decide, by decide, by decide⟩

/-- C3 amended: the dispatcher splits off the last 4 bytes of the
accumulated message as the little-endian transmitted CRC, computes the CRC
over sync ‖ header ‖ body (the sync marker included), and on mismatch
discards the frame and restarts the loop with both queues unchanged. -/
theorem crc_check_discards (pH : List Nat → Option Header)
    (cc : List Nat → Nat) (hb bc : List Nat) (r3 : Nat → ReadResult)
    (logQ respQ : QueueState) (hdr : Header)
    (hp : pH (SYNC ++ hb) = some hdr)
    (hr3 : r3 (hdr.msgLen + 4) = .ok bc) (hbc : 4 ≤ bc.length)
    (hne : cc (frameKept (frameMessage SYNC hb bc)) ≠
      frameCrcField (frameMessage SYNC hb bc)) :
    frameKept (frameMessage SYNC hb bc) =
      (SYNC ++ hb) ++ bc.take (bc.length - 4) ∧
    frameCrcField (frameMessage SYNC hb bc) =
      le_u32 (bc.drop (bc.length - 4)) ∧
    read_thread_step pH cc (.ok SYNC) (.ok hb) r3 logQ respQ =
      ⟨.cont, logQ, respQ⟩ := by
  have hlen : ((SYNC ++ hb) ++ bc).length - 4 =
      (SYNC ++ hb).length + (bc.length - 4) := by
    simp
    omega
  have hkept : frameKept (frameMessage SYNC hb bc) =
      (SYNC ++ hb) ++ bc.take (bc.length - 4) := by
    rw [frameKept, frameMessage, hlen, List.take_append_eq_append_take]
    congr 1
    · exact List.take_of_length_le (by omega)
    · congr 1
      omega
  have hcrc : frameCrcField (frameMessage SYNC hb bc) =
      le_u32 (bc.drop (bc.length - 4)) := by
    rw [frameCrcField, frameMessage, hlen, List.drop_append_eq_append_drop]
    have h1 : List.drop ((SYNC ++ hb).length + (bc.length - 4))
        (SYNC ++ hb) = [] := List.drop_eq_nil_of_le (by omega)
    have h2 : (SYNC ++ hb).length + (bc.length - 4) - (SYNC ++ hb).length =
        bc.length - 4 := by omega
    rw [h1, h2, List.nil_append]
  refine ⟨hkept, hcrc, ?_⟩
  simp only [read_thread_step, hp, hr3]
  simp [hne]

/-- Counterexample for C4: a timeout on the 25-byte header read panics the
reader (via `.unwrap()`) instead of continuing the loop. -/
theorem header_read_timeout_counterexample :
    (read_thread_step cexParse List.sum (.ok SYNC) .timedOut
        (fun _ => .timedOut) ⟨[], 5, true⟩ ⟨[], 5, true⟩).outcome =
      StepOutcome.panicked := by decide

/-- C4 amended: only the 3-byte sync read absorbs timeouts (the iteration
continues with both queues unchanged, surfacing no error); a timeout on the
25-byte header read or on the body-plus-CRC read hits `.unwrap()` and
panics, terminating the reader. -/
theorem read_timeout_behavior (pH : List Nat → Option Header)
    (cc : List Nat → Nat) (r2 : ReadResult) (r3 : Nat → ReadResult)
    (logQ respQ : QueueState) :
    read_thread_step pH cc .timedOut r2 r3 logQ respQ =
      ⟨.cont, logQ, respQ⟩ ∧
    (read_thread_step pH cc (.ok SYNC) .timedOut r3 logQ respQ).outcome =
      .panicked ∧
    (∀ hb hdr, pH (SYNC ++ hb) = some hdr →
      r3 (hdr.msgLen + 4) = .timedOut →
      (read_thread_step pH cc (.ok SYNC) (.ok hb) r3 logQ respQ).outcome =
        .panicked) := by
  refine ⟨rfl, by simp [read_thread_step], fun hb hdr hp hr3 => ?_⟩
  simp [read_thread_step, hp, hr3]

/-- Witness for C4 (amended): a concrete body-read timeout panics. -/
theorem read_timeout_behavior_witness :
    (read_thread_step cexParse List.sum .timedOut .timedOut
        (fun _ => .timedOut) ⟨[], 5, true⟩ ⟨[], 5, true⟩ =
      ⟨.cont, ⟨[], 5, true⟩, ⟨[], 5, true⟩⟩) ∧
    (read_thread_step cexParse List.sum (.ok SYNC)
        (.ok (List.replicate 25 0)) (fun _ => .timedOut)
        ⟨[], 5, true⟩ ⟨[], 5, true⟩).outcome = .panicked :=
  ⟨(read_timeout_behavior cexParse List.sum .timedOut (fun _ => .timedOut)
      ⟨[], 5, true⟩ ⟨[], 5, true⟩).1,
    (read_timeout_behavior cexParse List.sum .timedOut (fun _ => .timedOut)
      ⟨[], 5, true⟩ ⟨[], 5, true⟩).2.2 (List.replicate 25 0)
      ⟨0, .BestXYZ, 1⟩ (by decide) rfl⟩

/-- Witness for C3 (amended): a concrete frame whose transmitted CRC is
wrong is discarded with both queues unchanged. -/
theorem crc_check_discards_witness :
    frameKept (frameMessage SYNC (List.replicate 25 0) [7, 9, 9, 9, 9]) =
      (SYNC ++ List.replicate 25 0) ++ [7] ∧
    frameCrcField (frameMessage SYNC (List.replicate 25 0) [7, 9, 9, 9, 9]) =
      le_u32 [9, 9, 9, 9] ∧
    read_thread_step cexParse List.sum (.ok SYNC)
        (.ok (List.replicate 25 0)) (fun _ => .ok [7, 9, 9, 9, 9])
        ⟨[], 5, true⟩ ⟨[], 5, true⟩ =
      ⟨.cont, ⟨[], 5, true⟩, ⟨[], 5, true⟩⟩ :=
  crc_check_discards cexParse List.sum (List.replicate 25 0) [7, 9, 9, 9, 9]
    (fun _ => .ok [7, 9, 9, 9, 9]) ⟨[], 5, true⟩ ⟨[], 5, true⟩
    ⟨0, .BestXYZ, 1⟩ (by decide) rfl (by decide) (by decide)

/-- C8: a non-blocking enqueue succeeds exactly when the destination queue
is connected and below capacity; when the destination's `try_send` fails,
the validated frame's delivery hits `.unwrap()` and panics — the failure is
fatal for that delivery, never a silent drop — and when it succeeds the
frame is delivered to that queue. -/
theorem enqueue_failure_policy (q : QueueState) (item : Header × List Nat)
    (pH : List Nat → Option Header) (cc : List Nat → Nat)
    (hb bc : List Nat) (r3 : Nat → ReadResult) (logQ respQ : QueueState)
    (hdr : Header)
    (hp : pH (SYNC ++ hb) = some hdr)
    (hr3 : r3 (hdr.msgLen + 4) = .ok bc)
    (hcrc : cc (frameKept (frameMessage SYNC hb bc)) =
      frameCrcField (frameMessage SYNC hb bc)) :
    (q.trySend item = none ↔
      (q.connected = false ∨ q.cap ≤ q.buf.length)) ∧
    (responseFlagSet hdr = true →
      respQ.trySend (hdr, frameBody (frameMessage SYNC hb bc)) = none →
      read_thread_step pH cc (.ok SYNC) (.ok hb) r3 logQ respQ =
        ⟨.panicked, logQ, respQ⟩) ∧
    (responseFlagSet hdr = false →
      logQ.trySend (hdr, frameBody (frameMessage SYNC hb bc)) = none →
      read_thread_step pH cc (.ok SYNC) (.ok hb) r3 logQ respQ =
        ⟨.panicked, logQ, respQ⟩) ∧
    (∀ q2, responseFlagSet hdr = true →
      respQ.trySend (hdr, frameBody (frameMessage SYNC hb bc)) = some q2 →
      read_thread_step pH cc (.ok SYNC) (.ok hb) r3 logQ respQ =
        ⟨.delivered .resp hdr (frameBody (frameMessage SYNC hb bc)),
          logQ, q2⟩) ∧
    (∀ q2, responseFlagSet hdr = false →
      logQ.trySend (hdr, frameBody (frameMessage SYNC hb bc)) = some q2 →
      read_thread_step pH cc (.ok SYNC) (.ok hb) r3 logQ respQ =
        ⟨.delivered .log hdr (frameBody (frameMessage SYNC hb bc)),
          q2, respQ⟩) := by
  refine ⟨?_, fun hf ht => ?_, fun hf ht => ?_, fun q2 hf ht => ?_,
    fun q2 hf ht => ?_⟩
  · rcases q with ⟨buf, cap, conn⟩
    cases conn <;> simp [QueueState.trySend]
  all_goals
    simp only [read_thread_step, hp, hr3]
    simp [hcrc, hf, ht]

/-- Witness for C8: a full log queue (capacity 0) makes delivery of a
concrete validated log frame panic. -/
theorem enqueue_failure_policy_witness :
    (QueueState.trySend ⟨[], 0, true⟩ (⟨0, .BestXYZ, 1⟩, [7]) = none ↔
      ((true : Bool) = false ∨ 0 ≤ ([] : List (Header × List Nat)).length)) ∧
    read_thread_step cexParse List.sum (.ok SYNC)
        (.ok (List.replicate 25 0)) (fun _ => .ok [7, 7, 1, 0, 0])
        ⟨[], 0, true⟩ ⟨[], 5, true⟩ =
      ⟨.panicked, ⟨[], 0, true⟩, ⟨[], 5, true⟩⟩ :=
  ⟨(enqueue_failure_policy ⟨[], 0, true⟩ (⟨0, .BestXYZ, 1⟩, [7]) cexParse
      List.sum (List.replicate 25 0) [7, 7, 1, 0, 0]
      (fun _ => .ok [7, 7, 1, 0, 0]) ⟨[], 0, true⟩ ⟨[], 5, true⟩
      ⟨0, .BestXYZ, 1⟩ (by decide) rfl (by decide)).1,
    (enqueue_failure_policy ⟨[], 0, true⟩ (⟨0, .BestXYZ, 1⟩, [7]) cexParse
      List.sum (List.replicate 25 0) [7, 7, 1, 0, 0]
      (fun _ => .ok [7, 7, 1, 0, 0]) ⟨[], 0, true⟩ ⟨[], 5, true⟩
      ⟨0, .BestXYZ, 1⟩ (by decide) rfl (by decide)).2.2.1 (by decide)
      (by decide)⟩

/-- Helper: a concrete log parse function recognizing only BestXYZ
bodies. -/
def cexLogP : MessageID → List Nat → Option LogRecord :=
  fun id b => if id = MessageID.BestXYZ then some ⟨id, b⟩ else none

/-- C7 at the failing input: `get_log`'s receive uses `.unwrap()`, so when
the 5-second bounded wait on the log queue expires the call panics instead
of returning an error to the caller; the skip-and-return-first-parsed
behavior of the loop itself is as described. -/
theorem get_log_timeout_panics :
    get_log cexLogP [.error .timeout] = .panicked ∧
    get_log cexLogP
        [.ok (⟨0x80, .Log, 0⟩, []), .ok (⟨0, .Version, 0⟩, []),
          .ok (⟨0, .BestXYZ, 0⟩, [1, 2])] =
      .returned ⟨.BestXYZ, [1, 2]⟩ ∧
    get_log cexLogP [] = .stillLooping :=
  ⟨rfl, by decide, rfl⟩

end Oem6
